import Mathlib

/-!
Verification development for the configuration resolution and validation
engine of the keycloak-proxy repository (src/config.go).

The Go source is embedded shallowly:

* machine time durations (Go time.Duration, int64 nanoseconds) are Nat;
* Go maps are association lists (List (String × String)) with an
  insert-or-replace operation, so merge order is deterministic;
* Go slices are Lean lists (a nil Go slice and an empty Go slice are
  operationally identical for every operation the source performs on
  them: append, range, len);
* the external oracles that the validator consults (file existence on
  disk, net/url parsing, regexp compilation) are passed as explicit
  function parameters;
* every fmt.Errorf site of config.go gets one constructor of the
  ConfigError inductive, carrying the dynamic data the format string
  interpolates; ConfigError.message renders the exact Go message text.
-/

/-- Second is Go time.Second: one second in nanoseconds (time.Duration units). -/
def Second : Nat := 1000000000

/-- trimCharList drops whitespace from both ends of a character list
(model of Go strings.TrimSpace at the character level). -/
def trimCharList (l : List Char) : List Char :=
  ((l.dropWhile Char.isWhitespace).reverse.dropWhile Char.isWhitespace).reverse

/-- strTrim trims leading and trailing whitespace from a string. -/
def strTrim (s : String) : String := String.mk (trimCharList s.data)

/-- splitCharAux splits a character list on a separator character; like Go
strings.Split it yields one (possibly empty) group per separator gap. -/
def splitCharAux (sep : Char) : List Char → List (List Char)
  | [] => [[]]
  | c :: rest =>
    let groups := splitCharAux sep rest
    if c = sep then [] :: groups
    else
      match groups with
      | [] => [[c]]
      | g :: gs => (c :: g) :: gs

/-- strSplitOn splits a string on a separator character (Go strings.Split). -/
def strSplitOn (sep : Char) (s : String) : List String :=
  (splitCharAux sep s.data).map String.mk

/-- splitKVAux scans for the first occurrence of the separator and splits
there; the accumulator holds the already-scanned prefix reversed. -/
def splitKVAux : List Char → List Char → Option (String × String)
  | [], _ => none
  | c :: rest, acc =>
    if c = '=' then some (String.mk acc.reverse, String.mk rest)
    else splitKVAux rest (c :: acc)

/-- splitKV splits a key=value string at its first equals sign, returning
none when the separator is absent. -/
def splitKV (s : String) : Option (String × String) := splitKVAux s.data []

/-- isPrefixOfChars decides whether the first character list is a prefix of
the second. -/
def isPrefixOfChars : List Char → List Char → Bool
  | [], _ => true
  | _ :: _, [] => false
  | a :: p, b :: q => a = b && isPrefixOfChars p q

/-- hasPrefixStr is Go strings.HasPrefix. -/
def hasPrefixStr (pre s : String) : Bool := isPrefixOfChars pre.data s.data

/-- hasSuffixStr is Go strings.HasSuffix. -/
def hasSuffixStr (suf s : String) : Bool :=
  isPrefixOfChars suf.data.reverse s.data.reverse

/-- trimSuffixStr is Go strings.TrimSuffix: removes one occurrence of the
suffix when it is present, otherwise returns the string unchanged. -/
def trimSuffixStr (suf s : String) : String :=
  if hasSuffixStr suf s then String.mk (s.data.take (s.data.length - suf.data.length))
  else s

/-- Resource is one access-control rule (the struct is declared outside
src/config.go; its shape is modelled from the specification: a URI
pattern, allowed methods, required roles and a white-listed flag). -/
structure Resource where
  uri : String := ""
  methods : List String := []
  roles : List String := []
  whiteListed : Bool := false
  deriving DecidableEq, Repr

/-- newResource returns an empty resource, like the Go constructor. -/
def newResource : Resource := {}

/-- CORS holds the cross-origin fields of the configuration; Go zero
values are the field defaults. -/
structure CORS where
  Origins : List String := []
  Methods : List String := []
  Headers : List String := []
  ExposedHeaders : List String := []
  MaxAge : Nat := 0
  Credentials : Bool := false
  deriving DecidableEq, Repr

/-- Config is the configuration aggregate; field names follow the Go
struct (declared outside src/config.go, reconstructed from its uses in
config.go and the specification). Defaults are the Go zero values, so a
bare structure literal is the Go zero Config. -/
structure Config where
  Listen : String := ""
  DiscoveryURL : String := ""
  ClientID : String := ""
  ClientSecret : String := ""
  Scopes : List String := []
  RedirectionURL : String := ""
  RevocationEndpoint : String := ""
  StoreURL : String := ""
  SkipTokenVerification : Bool := false
  SkipUpstreamTLSVerify : Bool := false
  Upstream : String := ""
  EnableForwarding : Bool := false
  ForwardingUsername : String := ""
  ForwardingPassword : String := ""
  ForwardingDomains : List String := []
  TLSCertificate : String := ""
  TLSPrivateKey : String := ""
  TLSCaCertificate : String := ""
  TLSClientCertificate : String := ""
  EnableProxyProtocol : Bool := false
  UpstreamKeepalives : Bool := false
  UpstreamTimeout : Nat := 0
  UpstreamKeepaliveTimeout : Nat := 0
  IdleDuration : Nat := 0
  CookieAccessName : String := ""
  CookieRefreshName : String := ""
  CookieDomain : String := ""
  SecureCookie : Bool := false
  EncryptionKey : String := ""
  EnableRefreshTokens : Bool := false
  Resources : List Resource := []
  MatchClaims : List (String × String) := []
  AddClaims : List String := []
  Headers : List (String × String) := []
  TagData : List (String × String) := []
  Hostnames : List String := []
  CrossOrigin : CORS := {}
  EnableMetrics : Bool := false
  LogJSONFormat : Bool := false
  LogRequests : Bool := false
  Verbose : Bool := false
  EnableSecurityFilter : Bool := false
  NoRedirects : Bool := false
  SignInPage : String := ""
  ForbiddenPage : String := ""
  deriving DecidableEq, Repr

/-- ConfigError has one constructor per fmt.Errorf site reachable from
newDefaultConfig, Config.isValid and readOptions, each carrying the
dynamic values the Go format string interpolates. -/
inductive ConfigError where
  | noListen
  | tlsNoPrivateKey
  | tlsNoCertificate
  | tlsCertNotExists (path : String)
  | tlsKeyNotExists (path : String)
  | tlsCaNotExists (path : String)
  | tlsClientCertNotExists (path : String)
  | noClientID
  | noDiscoveryURL
  | noForwardingUsername
  | noForwardingPassword
  | noUpstream
  | upstreamInvalid (msg : String)
  | noEncryptionKey
  | encryptionKeyLength (n : Nat)
  | insecureRedirect
  | storeURLInvalid (msg : String)
  | resourceEmptyURI
  | claimRegexInvalid (pattern claimName : String)
  | invalidKeyPair (pair : String)
  | invalidResource (descriptor underlying : String)
  deriving DecidableEq, Repr

/-- ConfigError.message renders the exact error text of the corresponding
fmt.Errorf call in the Go source (resourceEmptyURI and invalidKeyPair are
produced by code outside src/config.go; their texts are modelled from the
specification). -/
def ConfigError.message : ConfigError → String
  | .noListen => "you have not specified the listening interface"
  | .tlsNoPrivateKey => "you have not provided a private key"
  | .tlsNoCertificate => "you have not provided a certificate file"
  | .tlsCertNotExists p => "the tls certificate " ++ p ++ " does not exist"
  | .tlsKeyNotExists p => "the tls private key " ++ p ++ " does not exist"
  | .tlsCaNotExists p => "the tls ca certificate file " ++ p ++ " does not exist"
  | .tlsClientCertNotExists p => "the tls client certificate " ++ p ++ " does not exist"
  | .noClientID => "you have not specified the client id"
  | .noDiscoveryURL => "you have not specified the discovery url"
  | .noForwardingUsername => "no forwarding username"
  | .noForwardingPassword => "no forwarding password"
  | .noUpstream => "you have not specified an upstream endpoint to proxy to"
  | .upstreamInvalid e => "the upstream endpoint is invalid, " ++ e
  | .noEncryptionKey => "you have not specified a encryption key for encoding the session state"
  | .encryptionKeyLength n =>
      "the encryption key (" ++ toString n ++ ") must be either 16 or 32 characters for AES-128/AES-256 selection"
  | .insecureRedirect => "the cookie is set to secure but your redirection url is non-tls"
  | .storeURLInvalid e => "the store url is invalid, error: " ++ e
  | .resourceEmptyURI => "the resource does not have a uri"
  | .claimRegexInvalid pat k =>
      "the claim matcher: " ++ pat ++ " for claim: " ++ k ++ " is not a valid regex"
  | .invalidKeyPair pair => "invalid key pair " ++ pair ++ ", should be key=value"
  | .invalidResource d e => "invalid resource " ++ d ++ ", " ++ e

/-- Modelled from the spec: Resource.IsValid (Resource is declared outside
src/config.go). The specification states the validity contract of a
Resource: the URI pattern must be non-empty. -/
def Resource.IsValid (r : Resource) : Option ConfigError :=
  if r.uri = "" then some ConfigError.resourceEmptyURI else none

/-- Modelled from the spec: one segment step of the resource descriptor
parser (the parser lives outside src/config.go). Each pipe-delimited
segment is a key=value pair, whitespace-insensitive, with recognized keys
uri, methods, roles and white-listed; a malformed segment or an
unrecognized key is a parse error. -/
def parseResourceSegments : List String → Resource → Except String Resource
  | [], r => Except.ok r
  | seg :: rest, r =>
    match splitKV seg with
    | none => Except.error ("invalid resource keypair " ++ seg)
    | some (k0, v0) =>
      let k := strTrim k0
      let v := strTrim v0
      if k = "uri" then parseResourceSegments rest { r with uri := v }
      else if k = "methods" then
        parseResourceSegments rest { r with methods := (strSplitOn ',' v).map strTrim }
      else if k = "roles" then
        parseResourceSegments rest { r with roles := (strSplitOn ',' v).map strTrim }
      else if k = "white-listed" then
        if v = "true" then parseResourceSegments rest { r with whiteListed := true }
        else if v = "false" then parseResourceSegments rest { r with whiteListed := false }
        else Except.error ("invalid white-listed value " ++ v)
      else Except.error ("invalid resource option " ++ k)

/-- Modelled from the spec: Resource.Parse, the resource descriptor
mini-language parser consumed by readOptions; it splits the descriptor on
the pipe character and folds the segments over the receiver. -/
def Resource.Parse (r : Resource) (s : String) : Except String Resource :=
  parseResourceSegments (strSplitOn '|' s) r

/-- mapInsert writes one key into an association-list map, replacing the
entry in place when the key is already present (Go map assignment). -/
def mapInsert (m : List (String × String)) (k v : String) : List (String × String) :=
  if m.any (fun p => p.1 = k) then m.map (fun p => if p.1 = k then (k, v) else p)
  else m ++ [(k, v)]

/-- Modelled from the spec: mergeMaps (declared outside src/config.go)
writes every source entry into the destination map, source entries
overriding on key collision. -/
def mergeMaps (dest src : List (String × String)) : List (String × String) :=
  src.foldl (fun d p => mapInsert d p.1 p.2) dest

/-- decodeKeyPairsAux folds key=value strings into an accumulator map,
failing on the first entry lacking the equals separator. -/
def decodeKeyPairsAux : List String → List (String × String) → Except ConfigError (List (String × String))
  | [], acc => Except.ok acc
  | s :: rest, acc =>
    match splitKV s with
    | none => Except.error (ConfigError.invalidKeyPair s)
    | some (k, v) => decodeKeyPairsAux rest (mapInsert acc k v)

/-- Modelled from the spec: decodeKeyPairs (declared outside
src/config.go) turns a list of key=value strings into a map, failing with
an invalid-key-pair error on any entry lacking the separator. -/
def decodeKeyPairs (l : List String) : Except ConfigError (List (String × String)) :=
  decodeKeyPairsAux l []

/-- newDefaultConfig embeds src/config.go lines 33-47: the default
configuration; every field the Go literal does not mention keeps its Go
zero value, which is the Lean structure default. -/
def newDefaultConfig : Config :=
  { Listen := "127.0.0.1:3000"
    TagData := []
    MatchClaims := []
    Headers := []
    UpstreamTimeout := 10 * Second
    UpstreamKeepaliveTimeout := 10 * Second
    CookieAccessName := "kc-access"
    CookieRefreshName := "kc-state"
    SecureCookie := true
    SkipUpstreamTLSVerify := true
    CrossOrigin := {} }

/-- findResourceError embeds the resources loop of Config.isValid
(src/config.go lines 120-124): the first failing Resource.IsValid error. -/
def findResourceError : List Resource → Option ConfigError
  | [] => none
  | x :: rest =>
    match x.IsValid with
    | some e => some e
    | none => findResourceError rest

/-- findClaimError embeds the claim-matcher loop of Config.isValid
(src/config.go lines 126-131): the first claim value that does not
compile as a regular expression, per the regexOk oracle. -/
def findClaimError (regexOk : String → Bool) : List (String × String) → Option ConfigError
  | [] => none
  | (k, v) :: rest =>
    if regexOk v then findClaimError regexOk rest
    else some (ConfigError.claimRegexInvalid v k)

/-- checkResourcesAndClaims runs the two trailing loops of Config.isValid
on the (possibly redirection-trimmed) configuration. -/
def checkResourcesAndClaims (regexOk : String → Bool) (r : Config) :
    Option ConfigError × Config :=
  match findResourceError r.Resources with
  | some e => (some e, r)
  | none =>
    match findClaimError regexOk r.MatchClaims with
    | some e => (some e, r)
    | none => (none, r)

/-- isValidKeyChecks embeds src/config.go lines 104-117: the refresh-token
encryption-key checks, the secure-cookie redirection-scheme check and the
store-URL parse check, falling through to the resources and claims loops.
The receiver reaching this point already had its redirection URL trimmed
when it carried a trailing slash. -/
def isValidKeyChecks (urlParse : String → Option String) (regexOk : String → Bool)
    (r : Config) : Option ConfigError × Config :=
  if r.EnableRefreshTokens ∧ r.EncryptionKey = "" then
    (some ConfigError.noEncryptionKey, r)
  else if r.EnableRefreshTokens ∧
      (r.EncryptionKey.length ≠ 16 ∧ r.EncryptionKey.length ≠ 32) then
    (some (ConfigError.encryptionKeyLength r.EncryptionKey.length), r)
  else if ¬ r.NoRedirects ∧ r.SecureCookie ∧
      ¬ hasPrefixStr "https" r.RedirectionURL then
    (some ConfigError.insecureRedirect, r)
  else if r.StoreURL ≠ "" then
    match urlParse r.StoreURL with
    | some e => (some (ConfigError.storeURLInvalid e), r)
    | none => checkResourcesAndClaims regexOk r
  else checkResourcesAndClaims regexOk r

/-- isValidVerificationChecks embeds src/config.go lines 94-118, the block
guarded by skip-token-verification being off: client id and discovery url
must be present, then the trailing slash of the redirection URL is trimmed
(the Go statement mutates the receiver; here the trimmed configuration is
passed to the continuation), then the key checks run. -/
def isValidVerificationChecks (urlParse : String → Option String) (regexOk : String → Bool)
    (r : Config) : Option ConfigError × Config :=
  if r.ClientID = "" then (some ConfigError.noClientID, r)
  else if r.DiscoveryURL = "" then (some ConfigError.noDiscoveryURL, r)
  else if hasSuffixStr "/" r.RedirectionURL then
    isValidKeyChecks urlParse regexOk
      { r with RedirectionURL := trimSuffixStr "/" r.RedirectionURL }
  else isValidKeyChecks urlParse regexOk r

/-- isValidProxyMode embeds src/config.go lines 86-131, the else branch
taken when forwarding is disabled: the upstream checks, the optional
token-verification block, and the resources and claims loops. -/
def isValidProxyMode (urlParse : String → Option String) (regexOk : String → Bool)
    (r : Config) : Option ConfigError × Config :=
  if r.Upstream = "" then (some ConfigError.noUpstream, r)
  else
    match urlParse r.Upstream with
    | some e => (some (ConfigError.upstreamInvalid e), r)
    | none =>
      if ¬ r.SkipTokenVerification then isValidVerificationChecks urlParse regexOk r
      else checkResourcesAndClaims regexOk r

/-- tlsError embeds src/config.go lines 54-71: the sequence of guarded
early returns checking the TLS material; none means all six guards passed.
None of these statements touch the receiver. -/
def tlsError (fileExists : String → Bool) (r : Config) : Option ConfigError :=
  if r.TLSCertificate ≠ "" ∧ r.TLSPrivateKey = "" then some ConfigError.tlsNoPrivateKey
  else if r.TLSPrivateKey ≠ "" ∧ r.TLSCertificate = "" then some ConfigError.tlsNoCertificate
  else if r.TLSCertificate ≠ "" ∧ ¬ fileExists r.TLSCertificate then
    some (ConfigError.tlsCertNotExists r.TLSCertificate)
  else if r.TLSPrivateKey ≠ "" ∧ ¬ fileExists r.TLSPrivateKey then
    some (ConfigError.tlsKeyNotExists r.TLSPrivateKey)
  else if r.TLSCaCertificate ≠ "" ∧ ¬ fileExists r.TLSCaCertificate then
    some (ConfigError.tlsCaNotExists r.TLSCaCertificate)
  else if r.TLSClientCertificate ≠ "" ∧ ¬ fileExists r.TLSClientCertificate then
    some (ConfigError.tlsClientCertNotExists r.TLSClientCertificate)
  else none

/-- forwardingModeError embeds src/config.go lines 73-85: the guarded
early returns of forwarding mode; none means the mode is fully configured.
None of these statements touch the receiver, and the resources and claims
loops do not run on this branch. -/
def forwardingModeError (r : Config) : Option ConfigError :=
  if r.ClientID = "" then some ConfigError.noClientID
  else if r.DiscoveryURL = "" then some ConfigError.noDiscoveryURL
  else if r.ForwardingUsername = "" then some ConfigError.noForwardingUsername
  else if r.ForwardingPassword = "" then some ConfigError.noForwardingPassword
  else none

/-- Config.isValid embeds src/config.go lines 50-135. External effects are
oracles: fileExists is the on-disk existence check, urlParse returns the
error message of Go url.Parse (none on success), regexOk is success of Go
regexp.Compile. The Go method mutates its receiver only by trimming one
trailing slash from RedirectionURL; the embedding returns the first error
(if any) together with the resulting configuration. -/
def Config.isValid (fileExists : String → Bool) (urlParse : String → Option String)
    (regexOk : String → Bool) (r : Config) : Option ConfigError × Config :=
  if r.Listen = "" then (some ConfigError.noListen, r)
  else
    match tlsError fileExists r with
    | some e => (some e, r)
    | none =>
      if r.EnableForwarding then (forwardingModeError r, r)
      else isValidProxyMode urlParse regexOk r

/-- Options models the urfave/cli context readOptions consumes: one field
per command-line flag of getOptions (src/config.go lines 351-579), none
meaning the flag was not explicitly provided (cx.IsSet = false). The
cookie-domain flag is declared as a string-slice flag but read back with
cx.String, so it carries a list here and is stringified on read. -/
structure Options where
  listen : Option String := none
  client_secret : Option String := none
  client_id : Option String := none
  discovery_url : Option String := none
  upstream_url : Option String := none
  revocation_url : Option String := none
  upstream_keepalives : Option Bool := none
  upstream_timeout : Option Nat := none
  upstream_keepalive_timeout : Option Nat := none
  idle_duration : Option Nat := none
  skip_token_verification : Option Bool := none
  skip_upstream_tls_verify : Option Bool := none
  encryption_key : Option String := none
  secure_cookie : Option Bool := none
  cookie_access_name : Option String := none
  cookie_refresh_name : Option String := none
  cookie_domain : Option (List String) := none
  add_claims : Option (List String) := none
  store_url : Option String := none
  no_redirects : Option Bool := none
  redirection_url : Option String := none
  tls_cert : Option String := none
  tls_private_key : Option String := none
  tls_ca_certificate : Option String := none
  tls_client_certificate : Option String := none
  enable_metrics : Option Bool := none
  enable_proxy_protocol : Option Bool := none
  enable_forwarding : Option Bool := none
  enable_refresh_tokens : Option Bool := none
  forwarding_username : Option String := none
  forwarding_password : Option String := none
  forwarding_domains : Option (List String) := none
  signin_page : Option String := none
  forbidden_page : Option String := none
  enable_security_filter : Option Bool := none
  json_logging : Option Bool := none
  log_requests : Option Bool := none
  verbose : Option Bool := none
  scope : Option (List String) := none
  hostname : Option (List String) := none
  cors_origins : Option (List String) := none
  cors_methods : Option (List String) := none
  cors_headers : Option (List String) := none
  cors_exposed_headers : Option (List String) := none
  cors_max_age : Option Nat := none
  cors_credentials : Option Bool := none
  tag : Option (List String) := none
  match_claims : Option (List String) := none
  headers : Option (List String) := none
  resource : Option (List String) := none
  deriving Repr

/-- cxString models cx.String of urfave/cli: the explicitly provided value
when the flag is set, otherwise the default declared for the flag in
getOptions. -/
def cxString (o : Option String) (dflt : String) : String := o.getD dflt

/-- cliSliceString models reading a string-slice flag back through
cx.String: urfave/cli renders the slice value the way fmt renders a Go
string slice. -/
def cliSliceString (l : List String) : String :=
  "[" ++ String.intercalate " " l ++ "]"

/-- applyScalars embeds the scalar, list-append and list-overwrite flag
handling of readOptions, src/config.go lines 160-297. In the source each
of these guarded statements writes one distinct configuration field and
every guard reads only the cli context, so the statement sequence is
embedded as one simultaneous record update. String flags guarded by
cx.String(name) != "" in the source keep that guard (with the flag's
declared default as the unset value); flags guarded by cx.IsSet update
exactly when the option is present. -/
def applyScalars (o : Options) (c : Config) : Config :=
  { c with
    Listen :=
      if cxString o.listen "127.0.0.1:3000" ≠ "" then cxString o.listen "127.0.0.1:3000" else c.Listen
    ClientSecret :=
      if cxString o.client_secret "" ≠ "" then cxString o.client_secret "" else c.ClientSecret
    ClientID :=
      if cxString o.client_id "" ≠ "" then cxString o.client_id "" else c.ClientID
    DiscoveryURL :=
      if cxString o.discovery_url "" ≠ "" then cxString o.discovery_url "" else c.DiscoveryURL
    Upstream :=
      if cxString o.upstream_url "" ≠ "" then cxString o.upstream_url "" else c.Upstream
    RevocationEndpoint :=
      if cxString o.revocation_url "/oauth2/revoke" ≠ "" then cxString o.revocation_url "/oauth2/revoke"
      else c.RevocationEndpoint
    UpstreamKeepalives := o.upstream_keepalives.getD c.UpstreamKeepalives
    UpstreamTimeout := o.upstream_timeout.getD c.UpstreamTimeout
    UpstreamKeepaliveTimeout := o.upstream_keepalive_timeout.getD c.UpstreamKeepaliveTimeout
    IdleDuration := o.idle_duration.getD c.IdleDuration
    SkipTokenVerification := o.skip_token_verification.getD c.SkipTokenVerification
    SkipUpstreamTLSVerify := o.skip_upstream_tls_verify.getD c.SkipUpstreamTLSVerify
    EncryptionKey := o.encryption_key.getD c.EncryptionKey
    SecureCookie := o.secure_cookie.getD c.SecureCookie
    CookieAccessName := o.cookie_access_name.getD c.CookieAccessName
    CookieRefreshName := o.cookie_refresh_name.getD c.CookieRefreshName
    CookieDomain :=
      (match o.cookie_domain with
       | some v => cliSliceString v
       | none => c.CookieDomain)
    AddClaims :=
      (match o.add_claims with
       | some v => c.AddClaims ++ v
       | none => c.AddClaims)
    StoreURL :=
      if cxString o.store_url "" ≠ "" then cxString o.store_url "" else c.StoreURL
    NoRedirects := o.no_redirects.getD c.NoRedirects
    RedirectionURL :=
      if cxString o.redirection_url "" ≠ "" then cxString o.redirection_url "" else c.RedirectionURL
    TLSCertificate := o.tls_cert.getD c.TLSCertificate
    TLSPrivateKey := o.tls_private_key.getD c.TLSPrivateKey
    TLSCaCertificate := o.tls_ca_certificate.getD c.TLSCaCertificate
    TLSClientCertificate := o.tls_client_certificate.getD c.TLSClientCertificate
    EnableMetrics := o.enable_metrics.getD c.EnableMetrics
    EnableProxyProtocol := o.enable_proxy_protocol.getD c.EnableProxyProtocol
    EnableForwarding := o.enable_forwarding.getD c.EnableForwarding
    EnableRefreshTokens := o.enable_refresh_tokens.getD c.EnableRefreshTokens
    ForwardingUsername := o.forwarding_username.getD c.ForwardingUsername
    ForwardingPassword := o.forwarding_password.getD c.ForwardingPassword
    ForwardingDomains :=
      (match o.forwarding_domains with
       | some v => c.ForwardingDomains ++ v
       | none => c.ForwardingDomains)
    SignInPage := o.signin_page.getD c.SignInPage
    ForbiddenPage := o.forbidden_page.getD c.ForbiddenPage
    EnableSecurityFilter :=
      if o.enable_security_filter.isSome then true else c.EnableSecurityFilter
    LogJSONFormat := o.json_logging.getD c.LogJSONFormat
    LogRequests := o.log_requests.getD c.LogRequests
    Verbose := o.verbose.getD c.Verbose
    Scopes := o.scope.getD c.Scopes
    Hostnames :=
      (match o.hostname with
       | some v => c.Hostnames ++ v
       | none => c.Hostnames)
    CrossOrigin :=
      { Origins :=
          (match o.cors_origins with
           | some v => c.CrossOrigin.Origins ++ v
           | none => c.CrossOrigin.Origins)
        Methods :=
          (match o.cors_methods with
           | some v => c.CrossOrigin.Methods ++ v
           | none => c.CrossOrigin.Methods)
        Headers :=
          (match o.cors_headers with
           | some v => c.CrossOrigin.Headers ++ v
           | none => c.CrossOrigin.Headers)
        ExposedHeaders :=
          (match o.cors_exposed_headers with
           | some v => c.CrossOrigin.ExposedHeaders ++ v
           | none => c.CrossOrigin.ExposedHeaders)
        MaxAge := o.cors_max_age.getD c.CrossOrigin.MaxAge
        Credentials := o.cors_credentials.getD c.CrossOrigin.Credentials } }

/-- applyResources embeds the resource loop of readOptions, src/config.go
lines 319-327: descriptors are parsed and appended one at a time, and the
first parse failure returns immediately, keeping the already-appended
entries. -/
def applyResources : List String → Config → Option ConfigError × Config
  | [], config => (none, config)
  | x :: rest, config =>
    match newResource.Parse x with
    | Except.error e => (some (ConfigError.invalidResource x e), config)
    | Except.ok r => applyResources rest { config with Resources := config.Resources ++ [r] }

/-- applyResourceOption embeds the cx.IsSet guard around the resource loop
(src/config.go line 319). -/
def applyResourceOption (o : Options) (config : Config) : Option ConfigError × Config :=
  match o.resource with
  | some xs => applyResources xs config
  | none => (none, config)

/-- applyHeadersOption embeds src/config.go lines 312-318: the headers
key-pairs are decoded and then merged into config.MatchClaims, exactly as
the source is written (not into config.Headers). -/
def applyHeadersOption (o : Options) (config : Config) : Option ConfigError × Config :=
  match o.headers with
  | some hs =>
    match decodeKeyPairs hs with
    | Except.error e => (some e, config)
    | Except.ok m =>
      applyResourceOption o { config with MatchClaims := mergeMaps config.MatchClaims m }
  | none => applyResourceOption o config

/-- applyMatchClaimsOption embeds src/config.go lines 305-311: match-claims
key-pairs merge into config.MatchClaims. -/
def applyMatchClaimsOption (o : Options) (config : Config) : Option ConfigError × Config :=
  match o.match_claims with
  | some cs =>
    match decodeKeyPairs cs with
    | Except.error e => (some e, config)
    | Except.ok m =>
      applyHeadersOption o { config with MatchClaims := mergeMaps config.MatchClaims m }
  | none => applyHeadersOption o config

/-- applyTagOption embeds src/config.go lines 298-304: the tag key-pairs
are decoded and merged into config.MatchClaims, exactly as the source is
written (not into config.TagData). -/
def applyTagOption (o : Options) (config : Config) : Option ConfigError × Config :=
  match o.tag with
  | some ts =>
    match decodeKeyPairs ts with
    | Except.error e => (some e, config)
    | Except.ok m =>
      applyMatchClaimsOption o { config with MatchClaims := mergeMaps config.MatchClaims m }
  | none => applyMatchClaimsOption o config

/-- readOptions embeds src/config.go lines 159-330: the scalar and list
flag updates followed, in source order, by the tag, match-claims, headers
and resource blocks; the first decode or parse failure returns that error
with the configuration as mutated so far. -/
def readOptions (o : Options) (config : Config) : Option ConfigError × Config :=
  applyTagOption o (applyScalars o config)

/-- DecodeFormat distinguishes the two unmarshal branches of
readConfigFile. -/
inductive DecodeFormat where
  | json
  | yaml
  deriving DecidableEq, Repr

/-- goExtChars embeds Go filepath.Ext scanning the path backwards (the
first argument is the reversed path): it stops at a path separator, and on
the first dot returns the extension including that dot; the accumulator
holds the characters already passed, in original order. -/
def goExtChars : List Char → List Char → Option (List Char)
  | [], _ => none
  | c :: rest, acc =>
    if c = '/' then none
    else if c = '.' then some ('.' :: acc)
    else goExtChars rest (c :: acc)

/-- filepathExt embeds Go filepath.Ext (standard library, modelled from
its documented behavior): the suffix beginning at the final dot in the
final slash-separated element, empty when there is no dot. -/
def filepathExt (p : String) : String :=
  match goExtChars p.data.reverse [] with
  | some l => String.mk l
  | none => ""

/-- configFileFormat embeds the format dispatch of readConfigFile,
src/config.go lines 340-345: the file content is decoded as JSON exactly
when filepath.Ext of the filename equals the bare string json, and as YAML
otherwise (the surrounding file I/O is outside the embedding). -/
def configFileFormat (filename : String) : DecodeFormat :=
  if filepathExt filename = "json" then DecodeFormat.json else DecodeFormat.yaml

/-- Helper: extension characters returned by goExtChars always start with
the dot character. -/
theorem goExtChars_shape (l : List Char) :
    ∀ acc, goExtChars l acc = none ∨ ∃ t, goExtChars l acc = some ('.' :: t) := by
  induction l with
  | nil => intro acc; exact Or.inl rfl
  | cons c rest ih =>
    intro acc
    simp only [goExtChars]
    by_cases h1 : c = '/'
    · simp [h1]
    · by_cases h2 : c = '.'
      · simp [h1, h2]
      · simpa [h1, h2] using ih (c :: acc)

/-- Helper: filepath.Ext never returns the bare token json: its result is
empty or begins with a dot. -/
theorem filepathExt_ne_json (p : String) : filepathExt p ≠ "json" := by
  unfold filepathExt
  rcases goExtChars_shape p.data.reverse [] with h | ⟨t, h⟩
  · rw [h]; decide
  · rw [h]
    intro hcon
    have hdata : '.' :: t = "json".data := congrArg String.data hcon
    have hhead : ('.' :: t).head? = "json".data.head? := congrArg List.head? hdata
    simp at hhead

/-- Claim C4: for every filename the JSON branch of readConfigFile is
unreachable: filepath.Ext always carries the leading dot (or is empty), so
it never equals the bare token json and the content is always decoded with
the YAML decoder. -/
theorem readConfigFile_always_yaml (filename : String) :
    filepathExt filename ≠ "json" ∧ configFileFormat filename = DecodeFormat.yaml := by
  refine ⟨filepathExt_ne_json filename, ?_⟩
  unfold configFileFormat
  simp [filepathExt_ne_json filename]

/-- Claim C1: at the concrete CLI input tag=[gold=pages], match-claims=[aud=myapp],
headers=[X-Custom=value], readOptions succeeds but merges the tag and
headers key-pairs into the claim-match mapping MatchClaims, leaving
TagData and Headers empty — contradicting the flag usage text of the same
source file, which documents tag as template render data and headers as
custom upstream headers. -/
theorem readOptions_tag_headers_into_matchClaims :
    (readOptions
        { tag := some ["gold=pages"], match_claims := some ["aud=myapp"],
          headers := some ["X-Custom=value"] } newDefaultConfig).1 = none ∧
    (readOptions
        { tag := some ["gold=pages"], match_claims := some ["aud=myapp"],
          headers := some ["X-Custom=value"] } newDefaultConfig).2.MatchClaims =
      [("gold", "pages"), ("aud", "myapp"), ("X-Custom", "value")] ∧
    (readOptions
        { tag := some ["gold=pages"], match_claims := some ["aud=myapp"],
          headers := some ["X-Custom=value"] } newDefaultConfig).2.TagData = [] ∧
    (readOptions
        { tag := some ["gold=pages"], match_claims := some ["aud=myapp"],
          headers := some ["X-Custom=value"] } newDefaultConfig).2.Headers = [] := by
  exact ⟨rfl, rfl, rfl, rfl⟩

/-- Claim C7: newDefaultConfig is a pure total function returning the documented
baseline: listen 127.0.0.1:3000, both upstream timeouts 10 seconds, cookie
names kc-access and kc-state, secure-cookie and skip-upstream-TLS-verify
true, and every map and sequence field the empty container. -/
theorem newDefaultConfig_values :
    newDefaultConfig.Listen = "127.0.0.1:3000" ∧
    newDefaultConfig.UpstreamTimeout = 10 * Second ∧
    newDefaultConfig.UpstreamKeepaliveTimeout = 10 * Second ∧
    newDefaultConfig.CookieAccessName = "kc-access" ∧
    newDefaultConfig.CookieRefreshName = "kc-state" ∧
    newDefaultConfig.SecureCookie = true ∧
    newDefaultConfig.SkipUpstreamTLSVerify = true ∧
    newDefaultConfig.TagData = [] ∧
    newDefaultConfig.MatchClaims = [] ∧
    newDefaultConfig.Headers = [] ∧
    newDefaultConfig.Resources = [] ∧
    newDefaultConfig.AddClaims = [] ∧
    newDefaultConfig.Scopes = [] ∧
    newDefaultConfig.Hostnames = [] ∧
    newDefaultConfig.ForwardingDomains = [] ∧
    newDefaultConfig.CrossOrigin.Origins = [] ∧
    newDefaultConfig.CrossOrigin.Methods = [] ∧
    newDefaultConfig.CrossOrigin.Headers = [] ∧
    newDefaultConfig.CrossOrigin.ExposedHeaders = [] := by
  exact ⟨rfl, rfl, rfl, rfl, rfl, rfl, rfl, rfl, rfl, rfl, rfl, rfl, rfl, rfl, rfl, rfl, rfl,
    rfl, rfl⟩

/-- Helper: the resource loop only ever extends the Resources field. -/
theorem applyResources_snd (xs : List String) (c : Config) :
    ∃ rs, (applyResources xs c).2 = { c with Resources := rs } := by
  induction xs generalizing c with
  | nil => exact ⟨c.Resources, by cases c; rfl⟩
  | cons x rest ih =>
    simp only [applyResources]
    cases newResource.Parse x with
    | error e => exact ⟨c.Resources, by cases c; rfl⟩
    | ok r =>
      rcases ih { c with Resources := c.Resources ++ [r] } with ⟨rs, h⟩
      exact ⟨rs, h⟩

/-- Helper: the four trailing overlay blocks of readOptions write only the
MatchClaims and Resources fields. -/
theorem applyTagOption_snd (o : Options) (c : Config) :
    ∃ mc rs, (applyTagOption o c).2 = { c with MatchClaims := mc, Resources := rs } := by
  have hres : ∀ d : Config, ∃ mc rs,
      (applyResourceOption o d).2 = { d with MatchClaims := mc, Resources := rs } := by
    intro d
    unfold applyResourceOption
    cases o.resource with
    | none => exact ⟨d.MatchClaims, d.Resources, by cases d; rfl⟩
    | some xs =>
      rcases applyResources_snd xs d with ⟨rs, h⟩
      exact ⟨d.MatchClaims, rs, h⟩
  have hhdr : ∀ d : Config, ∃ mc rs,
      (applyHeadersOption o d).2 = { d with MatchClaims := mc, Resources := rs } := by
    intro d
    unfold applyHeadersOption
    cases hh : o.headers with
    | none => exact hres d
    | some hs =>
      simp only
      cases hd : decodeKeyPairs hs with
      | error e => exact ⟨d.MatchClaims, d.Resources, by cases d; rfl⟩
      | ok m =>
        rcases hres { d with MatchClaims := mergeMaps d.MatchClaims m } with ⟨mc, rs, h⟩
        exact ⟨mc, rs, h⟩
  have hmc : ∀ d : Config, ∃ mc rs,
      (applyMatchClaimsOption o d).2 = { d with MatchClaims := mc, Resources := rs } := by
    intro d
    unfold applyMatchClaimsOption
    cases hh : o.match_claims with
    | none => exact hhdr d
    | some cs =>
      simp only
      cases hd : decodeKeyPairs cs with
      | error e => exact ⟨d.MatchClaims, d.Resources, by cases d; rfl⟩
      | ok m =>
        rcases hhdr { d with MatchClaims := mergeMaps d.MatchClaims m } with ⟨mc, rs, h⟩
        exact ⟨mc, rs, h⟩
  unfold applyTagOption
  cases ht : o.tag with
  | none => exact hmc c
  | some ts =>
    simp only
    cases hd : decodeKeyPairs ts with
    | error e => exact ⟨c.MatchClaims, c.Resources, by cases c; rfl⟩
    | ok m =>
      rcases hmc { c with MatchClaims := mergeMaps c.MatchClaims m } with ⟨mc, rs, h⟩
      exact ⟨mc, rs, h⟩

/-- Helper: the trailing loops of the validator never change the
configuration. -/
theorem checkResourcesAndClaims_snd (g : String → Bool) (r : Config) :
    (checkResourcesAndClaims g r).2 = r := by
  unfold checkResourcesAndClaims
  cases findResourceError r.Resources with
  | some e => rfl
  | none =>
    cases findClaimError g r.MatchClaims with
    | some e => rfl
    | none => rfl

/-- Helper: the key-check block never changes the configuration. -/
theorem isValidKeyChecks_snd (up : String → Option String) (g : String → Bool) (r : Config) :
    (isValidKeyChecks up g r).2 = r := by
  unfold isValidKeyChecks
  repeat' split
  all_goals first
    | rfl
    | exact checkResourcesAndClaims_snd g r

/-- Helper: the verification block either keeps the configuration or trims
one trailing slash from the redirection URL. -/
theorem isValidVerificationChecks_snd (up : String → Option String) (g : String → Bool)
    (r : Config) :
    (isValidVerificationChecks up g r).2 = r ∨
    (isValidVerificationChecks up g r).2 =
      { r with RedirectionURL := trimSuffixStr "/" r.RedirectionURL } := by
  unfold isValidVerificationChecks
  repeat' split
  · exact Or.inl rfl
  · exact Or.inl rfl
  · exact Or.inr (isValidKeyChecks_snd up g _)
  · exact Or.inl (isValidKeyChecks_snd up g r)

/-- Helper: the non-forwarding branch either keeps the configuration or
trims one trailing slash from the redirection URL. -/
theorem isValidProxyMode_snd (up : String → Option String) (g : String → Bool) (r : Config) :
    (isValidProxyMode up g r).2 = r ∨
    (isValidProxyMode up g r).2 =
      { r with RedirectionURL := trimSuffixStr "/" r.RedirectionURL } := by
  unfold isValidProxyMode
  repeat' split
  · exact Or.inl rfl
  · exact Or.inl rfl
  · exact isValidVerificationChecks_snd up g r
  · exact Or.inl (checkResourcesAndClaims_snd g r)

/-- Claim C8: running the validator leaves every field of the configuration
unchanged except that the redirection URL may have one trailing slash
trimmed; this holds on every path, whether validation succeeds or fails. -/
theorem isValid_frame (fe : String → Bool) (up : String → Option String)
    (g : String → Bool) (r : Config) :
    (Config.isValid fe up g r).2 = r ∨
    (Config.isValid fe up g r).2 =
      { r with RedirectionURL := trimSuffixStr "/" r.RedirectionURL } := by
  unfold Config.isValid
  repeat' split
  all_goals first
    | exact Or.inl rfl
    | exact isValidProxyMode_snd up g r

/-- Helper: a successful run of the trailing loops means both loops found
nothing. -/
theorem checkResourcesAndClaims_none (g : String → Bool) (d : Config)
    (h : (checkResourcesAndClaims g d).1 = none) :
    findResourceError d.Resources = none ∧ findClaimError g d.MatchClaims = none := by
  unfold checkResourcesAndClaims at h
  cases h1 : findResourceError d.Resources with
  | some e => rw [h1] at h; exact absurd h (by simp)
  | none =>
    rw [h1] at h
    cases h2 : findClaimError g d.MatchClaims with
    | some e => rw [h2] at h; exact absurd h (by simp)
    | none => exact ⟨rfl, rfl⟩

/-- Helper: a successful key-check block implies both trailing loops found
nothing. -/
theorem isValidKeyChecks_none (up : String → Option String) (g : String → Bool) (d : Config)
    (h : (isValidKeyChecks up g d).1 = none) :
    findResourceError d.Resources = none ∧ findClaimError g d.MatchClaims = none := by
  unfold isValidKeyChecks at h
  repeat' split at h
  all_goals first
    | exact absurd h (by simp)
    | exact checkResourcesAndClaims_none g d h

/-- Helper: a successful verification block implies both trailing loops
found nothing (the redirection trim does not touch Resources or
MatchClaims). -/
theorem isValidVerificationChecks_none (up : String → Option String) (g : String → Bool)
    (d : Config) (h : (isValidVerificationChecks up g d).1 = none) :
    findResourceError d.Resources = none ∧ findClaimError g d.MatchClaims = none := by
  unfold isValidVerificationChecks at h
  repeat' split at h
  · exact absurd h (by simp)
  · exact absurd h (by simp)
  · show findResourceError
        ({ d with RedirectionURL := trimSuffixStr "/" d.RedirectionURL } : Config).Resources = none ∧
      findClaimError g
        ({ d with RedirectionURL := trimSuffixStr "/" d.RedirectionURL } : Config).MatchClaims = none
    exact isValidKeyChecks_none up g _ h
  · exact isValidKeyChecks_none up g d h

/-- Helper: a successful non-forwarding validation implies both trailing
loops found nothing. -/
theorem isValidProxyMode_none (up : String → Option String) (g : String → Bool)
    (d : Config) (h : (isValidProxyMode up g d).1 = none) :
    findResourceError d.Resources = none ∧ findClaimError g d.MatchClaims = none := by
  unfold isValidProxyMode at h
  repeat' split at h
  all_goals first
    | exact absurd h (by simp)
    | exact isValidVerificationChecks_none up g d h
    | exact checkResourcesAndClaims_none g d h

/-- Claim C2, amended: the validator checks the resource contracts and the
claim-match regular expressions exactly when forwarding mode is disabled.
With forwarding enabled the returned error is entirely independent of the
Resources sequence and the MatchClaims mapping; with forwarding disabled a
successful validation implies every resource and every claim pattern
passed its check. -/
theorem isValid_resource_claim_checks_forwarding_dependent (fe : String → Bool)
    (up : String → Option String) (g : String → Bool) (r : Config)
    (rs : List Resource) (ms : List (String × String)) :
    (r.EnableForwarding = true →
      (Config.isValid fe up g { r with Resources := rs, MatchClaims := ms }).1 =
        (Config.isValid fe up g r).1) ∧
    (r.EnableForwarding = false → (Config.isValid fe up g r).1 = none →
      findResourceError r.Resources = none ∧ findClaimError g r.MatchClaims = none) := by
  constructor
  · intro hF
    have htls : tlsError fe { r with Resources := rs, MatchClaims := ms } = tlsError fe r := rfl
    have hfwd : forwardingModeError { r with Resources := rs, MatchClaims := ms } =
        forwardingModeError r := rfl
    unfold Config.isValid
    simp only [htls, hfwd]
    by_cases hL : r.Listen = ""
    · simp [hL]
    · simp only [hL]
      cases tlsError fe r with
      | some e => simp
      | none => simp [hF]
  · intro hF h
    unfold Config.isValid at h
    by_cases hL : r.Listen = ""
    · rw [if_pos hL] at h; exact absurd h (by simp)
    · rw [if_neg hL] at h
      cases htls : tlsError fe r with
      | some e => rw [htls] at h; exact absurd h (by simp)
      | none =>
        rw [htls] at h
        rw [hF] at h
        simp only [if_false, Bool.false_eq_true] at h
        exact isValidProxyMode_none up g r h

/-- Claim C2, counterexample: with forwarding enabled and all forwarding fields
present, a configuration holding an invalid Resource (empty URI) and a
claim pattern the regex oracle rejects still validates with no error,
although both trailing checks would have reported errors had they run. -/
theorem isValid_forwarding_skips_resource_claim_checks_cx :
    (Config.isValid (fun _ => false) (fun _ => none) (fun _ => false)
        { newDefaultConfig with
            EnableForwarding := true,
            ClientID := "cid",
            DiscoveryURL := "https://idp.example.com",
            ForwardingUsername := "bob",
            ForwardingPassword := "pw",
            Resources := [newResource],
            MatchClaims := [("aud", "[")] }).1 = none ∧
    findResourceError [newResource] = some ConfigError.resourceEmptyURI ∧
    findClaimError (fun _ => false) [("aud", "[")] =
      some (ConfigError.claimRegexInvalid "[" "aud") := by
  exact ⟨rfl, rfl, rfl⟩

/-- Claim C2, witness: the amended theorem applied at a forwarding-enabled
configuration (first conjunct) and at a successfully validating
non-forwarding configuration (second conjunct). -/
theorem isValid_resource_claim_checks_forwarding_dependent_witness :
    ((Config.isValid (fun _ => false) (fun _ => none) (fun _ => true)
        { newDefaultConfig with
            EnableForwarding := true,
            Resources := [newResource],
            MatchClaims := [("k", "v")] }).1 =
      (Config.isValid (fun _ => false) (fun _ => none) (fun _ => true)
        { newDefaultConfig with EnableForwarding := true }).1) ∧
    (findResourceError [] = none ∧ findClaimError (fun _ => true) [] = none) := by
  constructor
  · exact (isValid_resource_claim_checks_forwarding_dependent (fun _ => false) (fun _ => none)
      (fun _ => true) { newDefaultConfig with EnableForwarding := true } [newResource]
      [("k", "v")]).1 rfl
  · exact (isValid_resource_claim_checks_forwarding_dependent (fun _ => false) (fun _ => none)
      (fun _ => true)
      { newDefaultConfig with
          Upstream := "http://127.0.0.1:8080",
          SkipTokenVerification := true }
      [] []).2 rfl rfl

/-- Claim C3, counterexample: the default configuration with only the upstream
set to a URL that Go url.Parse accepts (the urlParse oracle returns no
error for it) and forwarding disabled does not validate cleanly — the
validator reports the missing client id. -/
theorem default_config_with_upstream_invalid_cx :
    (Config.isValid (fun _ => false) (fun _ => none) (fun _ => true)
        { newDefaultConfig with Upstream := "http://127.0.0.1:8080" }).1 ≠ none ∧
    (Config.isValid (fun _ => false) (fun _ => none) (fun _ => true)
        { newDefaultConfig with Upstream := "http://127.0.0.1:8080" }).1 =
      some ConfigError.noClientID := by
  have h : (Config.isValid (fun _ => false) (fun _ => none) (fun _ => true)
      { newDefaultConfig with Upstream := "http://127.0.0.1:8080" }).1 =
      some ConfigError.noClientID := rfl
  exact ⟨by rw [h]; simp, h⟩

/-- Claim C3, amended: for every file-existence oracle, every url-parse oracle,
every regex oracle and every non-empty upstream URL the url parser
accepts, the validator run on the default configuration with that upstream
(forwarding disabled by default) returns the missing-client-id error,
because the default configuration has token verification enabled and no
client id. -/
theorem default_config_with_upstream_missing_client_id (fe : String → Bool)
    (up : String → Option String) (g : String → Bool) (u : String)
    (hu : u ≠ "") (hup : up u = none) :
    (Config.isValid fe up g { newDefaultConfig with Upstream := u }).1 =
      some ConfigError.noClientID := by
  have htls : tlsError fe { newDefaultConfig with Upstream := u } = none := rfl
  unfold Config.isValid
  rw [htls]
  have hL : ({ newDefaultConfig with Upstream := u } : Config).Listen = "127.0.0.1:3000" := rfl
  rw [hL]
  simp only [if_neg (by decide : ¬ ("127.0.0.1:3000" : String) = "")]
  have hF : ({ newDefaultConfig with Upstream := u } : Config).EnableForwarding = false := rfl
  rw [hF]
  simp only [Bool.false_eq_true, if_false]
  unfold isValidProxyMode
  have hU : ({ newDefaultConfig with Upstream := u } : Config).Upstream = u := rfl
  rw [hU, if_neg hu, hup]
  have hS : ({ newDefaultConfig with Upstream := u } : Config).SkipTokenVerification = false := rfl
  rw [hS]
  simp only [Bool.false_eq_true, not_false_eq_true, if_true]
  unfold isValidVerificationChecks
  have hC : ({ newDefaultConfig with Upstream := u } : Config).ClientID = "" := rfl
  rw [hC]
  simp

/-- Claim C3, witness: the amended theorem applied at a concrete upstream URL
with a concrete url-parse oracle that accepts it. -/
theorem default_config_with_upstream_missing_client_id_witness :
    (Config.isValid (fun _ => true) (fun _ => none) (fun _ => false)
        { newDefaultConfig with Upstream := "http://upstream.example.com" }).1 =
      some ConfigError.noClientID := by
  exact default_config_with_upstream_missing_client_id (fun _ => true) (fun _ => none)
    (fun _ => false) "http://upstream.example.com" (by decide) rfl

/-- Helper: when parsing reaches a failing descriptor, the loop returns
the invalid-resource error naming that descriptor and keeps exactly the
resources parsed from the preceding descriptors. -/
theorem applyResources_first_error (x : String) (rest : List String) (e : String)
    (hx : newResource.Parse x = Except.error e) :
    ∀ (pre : List String) (c : Config),
      (∀ y ∈ pre, ∃ r, newResource.Parse y = Except.ok r) →
      (applyResources (pre ++ x :: rest) c).1 = some (ConfigError.invalidResource x e) ∧
      (applyResources (pre ++ x :: rest) c).2.Resources =
        c.Resources ++ pre.filterMap (fun y => (newResource.Parse y).toOption) := by
  intro pre
  induction pre with
  | nil =>
    intro c _
    simp only [List.nil_append, applyResources, hx]
    exact ⟨trivial, by simp⟩
  | cons y pre ih =>
    intro c hpre
    rcases hpre y (by simp) with ⟨r, hy⟩
    simp only [List.cons_append, applyResources, hy]
    rcases ih { c with Resources := c.Resources ++ [r] }
      (fun z hz => hpre z (by simp [hz])) with ⟨h1, h2⟩
    refine ⟨h1, h2.trans ?_⟩
    simp [List.filterMap_cons, hy, Except.toOption, List.append_assoc]

/-- Claim C5, amended: a malformed resource descriptor makes readOptions fail
with an error naming the offending descriptor and the underlying parse
error, but the resources decoded from the descriptors preceding the
malformed one are committed: the Resources sequence has gained exactly
those entries when the call returns. -/
theorem readOptions_resource_error_commits_earlier (o : Options) (c : Config)
    (pre : List String) (x : String) (rest : List String) (e : String)
    (ht : o.tag = none) (hm : o.match_claims = none) (hh : o.headers = none)
    (ho : o.resource = some (pre ++ x :: rest))
    (hpre : ∀ y ∈ pre, ∃ r, newResource.Parse y = Except.ok r)
    (hx : newResource.Parse x = Except.error e) :
    (readOptions o c).1 = some (ConfigError.invalidResource x e) ∧
    (readOptions o c).2.Resources =
      c.Resources ++ pre.filterMap (fun y => (newResource.Parse y).toOption) := by
  unfold readOptions applyTagOption applyMatchClaimsOption applyHeadersOption applyResourceOption
  simp only [ht, hm, hh, ho]
  exact applyResources_first_error x rest e hx pre (applyScalars o c) hpre

/-- Claim C5, counterexample: at the concrete input resource=[uri=/admin,
no-separator] the overlay fails naming the second descriptor, yet the
resource parsed from the first descriptor has been committed to the
Resources sequence of the configuration. -/
theorem readOptions_resource_commits_earlier_cx :
    (readOptions { resource := some ["uri=/admin", "no-separator"] } newDefaultConfig).1 =
      some (ConfigError.invalidResource "no-separator"
        "invalid resource keypair no-separator") ∧
    (readOptions { resource := some ["uri=/admin", "no-separator"] }
        newDefaultConfig).2.Resources = [{ newResource with uri := "/admin" }] := by
  exact ⟨rfl, rfl⟩

/-- Claim C5, witness: the amended theorem applied at the concrete option list
resource=[uri=/a, bad] over the default configuration. -/
theorem readOptions_resource_error_commits_earlier_witness :
    (readOptions { resource := some ["uri=/a", "bad"] } newDefaultConfig).1 =
      some (ConfigError.invalidResource "bad" "invalid resource keypair bad") ∧
    (readOptions { resource := some ["uri=/a", "bad"] } newDefaultConfig).2.Resources =
      newDefaultConfig.Resources ++
        (["uri=/a"].filterMap (fun y => (newResource.Parse y).toOption)) := by
  exact readOptions_resource_error_commits_earlier
    { resource := some ["uri=/a", "bad"] } newDefaultConfig ["uri=/a"] "bad" [] 
    "invalid resource keypair bad" rfl rfl rfl rfl
    (by
      intro y hy
      rw [List.mem_singleton] at hy
      subst hy
      exact ⟨{ newResource with uri := "/a" }, rfl⟩)
    rfl

/-- Claim C6, counterexample: explicitly passing the empty string for client-id
does not overwrite the ClientID field, because the source guards that
option with a non-emptiness test on the provided value rather than with
the is-set bit. -/
theorem readOptions_empty_string_not_applied_cx :
    (readOptions { client_id := some "" }
        { newDefaultConfig with ClientID := "myclient" }).2.ClientID ≠ "" ∧
    (readOptions { client_id := some "" }
        { newDefaultConfig with ClientID := "myclient" }).2.ClientID = "myclient" := by
  exact ⟨by decide, rfl⟩

/-- Claim C6, amended: scalar options split into two groups. Options guarded by
the is-set bit in the source (all booleans except enable-security-filter,
all durations, and the string options encryption-key, the cookie names,
cookie-domain, the four TLS paths, the forwarding credentials and the two
page paths) overwrite their field with the provided value unconditionally,
empty string included. The string options guarded by a non-emptiness test
on the read value (listen, client-secret, client-id, discovery-url,
upstream-url, revocation-url, store-url, redirection-url) overwrite only
when the value read from the cli context — the provided value, or the
flag's declared default when unset — is non-empty, so an explicit empty
string does not overwrite. enable-security-filter sets its field to true
whenever the flag is set, regardless of the provided value, and
cookie-domain receives the fmt rendering of the provided string slice. -/
theorem readOptions_scalar_overlay (o : Options) (c : Config) :
    ((readOptions o c).2.Listen =
      if o.listen.getD "127.0.0.1:3000" = "" then c.Listen else o.listen.getD "127.0.0.1:3000") ∧
    ((readOptions o c).2.ClientSecret =
      if o.client_secret.getD "" = "" then c.ClientSecret else o.client_secret.getD "") ∧
    ((readOptions o c).2.ClientID =
      if o.client_id.getD "" = "" then c.ClientID else o.client_id.getD "") ∧
    ((readOptions o c).2.DiscoveryURL =
      if o.discovery_url.getD "" = "" then c.DiscoveryURL else o.discovery_url.getD "") ∧
    ((readOptions o c).2.Upstream =
      if o.upstream_url.getD "" = "" then c.Upstream else o.upstream_url.getD "") ∧
    ((readOptions o c).2.RevocationEndpoint =
      if o.revocation_url.getD "/oauth2/revoke" = "" then c.RevocationEndpoint
      else o.revocation_url.getD "/oauth2/revoke") ∧
    ((readOptions o c).2.StoreURL =
      if o.store_url.getD "" = "" then c.StoreURL else o.store_url.getD "") ∧
    ((readOptions o c).2.RedirectionURL =
      if o.redirection_url.getD "" = "" then c.RedirectionURL else o.redirection_url.getD "") ∧
    ((readOptions o c).2.EncryptionKey = o.encryption_key.getD c.EncryptionKey) ∧
    ((readOptions o c).2.CookieAccessName = o.cookie_access_name.getD c.CookieAccessName) ∧
    ((readOptions o c).2.CookieRefreshName = o.cookie_refresh_name.getD c.CookieRefreshName) ∧
    ((readOptions o c).2.CookieDomain =
      (match o.cookie_domain with
       | some v => cliSliceString v
       | none => c.CookieDomain)) ∧
    ((readOptions o c).2.TLSCertificate = o.tls_cert.getD c.TLSCertificate) ∧
    ((readOptions o c).2.TLSPrivateKey = o.tls_private_key.getD c.TLSPrivateKey) ∧
    ((readOptions o c).2.TLSCaCertificate = o.tls_ca_certificate.getD c.TLSCaCertificate) ∧
    ((readOptions o c).2.TLSClientCertificate =
      o.tls_client_certificate.getD c.TLSClientCertificate) ∧
    ((readOptions o c).2.ForwardingUsername = o.forwarding_username.getD c.ForwardingUsername) ∧
    ((readOptions o c).2.ForwardingPassword = o.forwarding_password.getD c.ForwardingPassword) ∧
    ((readOptions o c).2.SignInPage = o.signin_page.getD c.SignInPage) ∧
    ((readOptions o c).2.ForbiddenPage = o.forbidden_page.getD c.ForbiddenPage) ∧
    ((readOptions o c).2.UpstreamKeepalives = o.upstream_keepalives.getD c.UpstreamKeepalives) ∧
    ((readOptions o c).2.SkipTokenVerification =
      o.skip_token_verification.getD c.SkipTokenVerification) ∧
    ((readOptions o c).2.SkipUpstreamTLSVerify =
      o.skip_upstream_tls_verify.getD c.SkipUpstreamTLSVerify) ∧
    ((readOptions o c).2.SecureCookie = o.secure_cookie.getD c.SecureCookie) ∧
    ((readOptions o c).2.NoRedirects = o.no_redirects.getD c.NoRedirects) ∧
    ((readOptions o c).2.EnableMetrics = o.enable_metrics.getD c.EnableMetrics) ∧
    ((readOptions o c).2.EnableProxyProtocol =
      o.enable_proxy_protocol.getD c.EnableProxyProtocol) ∧
    ((readOptions o c).2.EnableForwarding = o.enable_forwarding.getD c.EnableForwarding) ∧
    ((readOptions o c).2.EnableRefreshTokens =
      o.enable_refresh_tokens.getD c.EnableRefreshTokens) ∧
    ((readOptions o c).2.LogJSONFormat = o.json_logging.getD c.LogJSONFormat) ∧
    ((readOptions o c).2.LogRequests = o.log_requests.getD c.LogRequests) ∧
    ((readOptions o c).2.Verbose = o.verbose.getD c.Verbose) ∧
    ((readOptions o c).2.EnableSecurityFilter =
      if o.enable_security_filter.isSome then true else c.EnableSecurityFilter) ∧
    ((readOptions o c).2.UpstreamTimeout = o.upstream_timeout.getD c.UpstreamTimeout) ∧
    ((readOptions o c).2.UpstreamKeepaliveTimeout =
      o.upstream_keepalive_timeout.getD c.UpstreamKeepaliveTimeout) ∧
    ((readOptions o c).2.IdleDuration = o.idle_duration.getD c.IdleDuration) ∧
    ((readOptions o c).2.CrossOrigin.MaxAge = o.cors_max_age.getD c.CrossOrigin.MaxAge) ∧
    ((readOptions o c).2.CrossOrigin.Credentials =
      o.cors_credentials.getD c.CrossOrigin.Credentials) := by
  rcases applyTagOption_snd o (applyScalars o c) with ⟨mc, rs, h⟩
  have h2 : (readOptions o c).2 = { applyScalars o c with MatchClaims := mc, Resources := rs } := h
  rw [h2]
  simp only [applyScalars, cxString]
  repeat' apply And.intro
  all_goals first
    | trivial
    | (split <;> simp_all)

/-- Helper: the resources loop reports only the empty-URI error. -/
theorem findResourceError_shape (l : List Resource) :
    findResourceError l = none ∨ findResourceError l = some ConfigError.resourceEmptyURI := by
  induction l with
  | nil => exact Or.inl rfl
  | cons x rest ih =>
    simp only [findResourceError, Resource.IsValid]
    by_cases h : x.uri = ""
    · simp [h]
    · simpa [h] using ih

/-- Helper: the claims loop reports only claim-regex errors. -/
theorem findClaimError_shape (g : String → Bool) (l : List (String × String)) :
    findClaimError g l = none ∨
    ∃ p k, findClaimError g l = some (ConfigError.claimRegexInvalid p k) := by
  induction l with
  | nil => exact Or.inl rfl
  | cons x rest ih =>
    rcases x with ⟨k, v⟩
    simp only [findClaimError]
    by_cases h : g v = true
    · simpa [h] using ih
    · simp only [h]
      exact Or.inr ⟨v, k, by simp⟩

/-- Helper: the trailing loops return no error, the empty-URI error, or a
claim-regex error. -/
theorem checkResourcesAndClaims_fst_shape (g : String → Bool) (d : Config) :
    (checkResourcesAndClaims g d).1 = none ∨
    (checkResourcesAndClaims g d).1 = some ConfigError.resourceEmptyURI ∨
    ∃ p k, (checkResourcesAndClaims g d).1 = some (ConfigError.claimRegexInvalid p k) := by
  unfold checkResourcesAndClaims
  rcases findResourceError_shape d.Resources with h | h <;> rw [h]
  · rcases findClaimError_shape g d.MatchClaims with h2 | ⟨p, k, h2⟩ <;> rw [h2]
    · exact Or.inl rfl
    · exact Or.inr (Or.inr ⟨p, k, rfl⟩)
  · exact Or.inr (Or.inl rfl)

/-- Helper: with refresh tokens enabled and a key length that is neither
16 nor 32 the key-check block always errors. -/
theorem isValidKeyChecks_fst_badlen (up : String → Option String) (g : String → Bool)
    (d : Config) (hR : d.EnableRefreshTokens = true)
    (h16 : d.EncryptionKey.length ≠ 16) (h32 : d.EncryptionKey.length ≠ 32) :
    (isValidKeyChecks up g d).1 ≠ none := by
  unfold isValidKeyChecks
  by_cases h1 : d.EnableRefreshTokens = true ∧ d.EncryptionKey = ""
  · simp [h1]
  · rw [if_neg h1, if_pos ⟨hR, h16, h32⟩]
    simp

/-- Helper: with a key of length 16 or 32 the key-check block never
reports either encryption-key error. -/
theorem isValidKeyChecks_fst_goodlen (up : String → Option String) (g : String → Bool)
    (d : Config) (hlen : d.EncryptionKey.length = 16 ∨ d.EncryptionKey.length = 32) :
    ∀ n, (isValidKeyChecks up g d).1 ≠ some (ConfigError.encryptionKeyLength n) ∧
      (isValidKeyChecks up g d).1 ≠ some ConfigError.noEncryptionKey := by
  intro n
  have hk : d.EncryptionKey ≠ "" := by
    intro h
    rw [h] at hlen
    simp at hlen
  have h1 : ¬ (d.EnableRefreshTokens = true ∧ d.EncryptionKey = "") := by
    intro h
    exact hk h.2
  have h2 : ¬ (d.EnableRefreshTokens = true ∧
      (d.EncryptionKey.length ≠ 16 ∧ d.EncryptionKey.length ≠ 32)) := by
    intro h
    rcases hlen with h16 | h32
    · exact h.2.1 h16
    · exact h.2.2 h32
  unfold isValidKeyChecks
  rw [if_neg h1, if_neg h2]
  repeat' split
  all_goals constructor
  all_goals try simp
  all_goals rcases checkResourcesAndClaims_fst_shape g d with h | h | ⟨p, k, h⟩ <;> rw [h] <;> simp

/-- Helper: with refresh tokens enabled and a key of length 15 the
key-check block reports the length error citing 15. -/
theorem isValidKeyChecks_fst_len15 (up : String → Option String) (g : String → Bool)
    (d : Config) (hR : d.EnableRefreshTokens = true)
    (h15 : d.EncryptionKey.length = 15) :
    (isValidKeyChecks up g d).1 = some (ConfigError.encryptionKeyLength 15) := by
  have hk : d.EncryptionKey ≠ "" := by
    intro hh
    rw [hh] at h15
    simp at h15
  unfold isValidKeyChecks
  rw [if_neg (fun hand => hk hand.2)]
  rw [if_pos ⟨hR, by omega, by omega⟩]
  simp [h15]

/-- Helper: lifting the bad-length error through the verification block. -/
theorem isValidVerificationChecks_fst_badlen (up : String → Option String)
    (g : String → Bool) (r : Config) (hR : r.EnableRefreshTokens = true)
    (h16 : r.EncryptionKey.length ≠ 16) (h32 : r.EncryptionKey.length ≠ 32) :
    (isValidVerificationChecks up g r).1 ≠ none := by
  unfold isValidVerificationChecks
  repeat' split
  · simp
  · simp
  · exact isValidKeyChecks_fst_badlen up g
      { r with RedirectionURL := trimSuffixStr "/" r.RedirectionURL } hR h16 h32
  · exact isValidKeyChecks_fst_badlen up g r hR h16 h32

/-- Helper: lifting the good-length exclusions through the verification
block. -/
theorem isValidVerificationChecks_fst_goodlen (up : String → Option String)
    (g : String → Bool) (r : Config)
    (hlen : r.EncryptionKey.length = 16 ∨ r.EncryptionKey.length = 32) :
    ∀ n, (isValidVerificationChecks up g r).1 ≠ some (ConfigError.encryptionKeyLength n) ∧
      (isValidVerificationChecks up g r).1 ≠ some ConfigError.noEncryptionKey := by
  intro n
  unfold isValidVerificationChecks
  repeat' split
  · exact ⟨by simp, by simp⟩
  · exact ⟨by simp, by simp⟩
  · exact isValidKeyChecks_fst_goodlen up g
      { r with RedirectionURL := trimSuffixStr "/" r.RedirectionURL } hlen n
  · exact isValidKeyChecks_fst_goodlen up g r hlen n

/-- Helper: lifting the length-15 error through the verification block. -/
theorem isValidVerificationChecks_fst_len15 (up : String → Option String)
    (g : String → Bool) (r : Config) (hR : r.EnableRefreshTokens = true)
    (h15 : r.EncryptionKey.length = 15) (hC : ¬ r.ClientID = "") (hD : ¬ r.DiscoveryURL = "") :
    (isValidVerificationChecks up g r).1 = some (ConfigError.encryptionKeyLength 15) := by
  unfold isValidVerificationChecks
  rw [if_neg hC, if_neg hD]
  split
  · exact isValidKeyChecks_fst_len15 up g
      { r with RedirectionURL := trimSuffixStr "/" r.RedirectionURL } hR h15
  · exact isValidKeyChecks_fst_len15 up g r hR h15

/-- Helper: lifting the bad-length error through the non-forwarding
branch. -/
theorem isValidProxyMode_fst_badlen (up : String → Option String) (g : String → Bool)
    (r : Config) (hS : r.SkipTokenVerification = false)
    (hR : r.EnableRefreshTokens = true)
    (h16 : r.EncryptionKey.length ≠ 16) (h32 : r.EncryptionKey.length ≠ 32) :
    (isValidProxyMode up g r).1 ≠ none := by
  unfold isValidProxyMode
  repeat' split
  · simp
  · simp
  · exact isValidVerificationChecks_fst_badlen up g r hR h16 h32
  · simp_all

/-- Helper: lifting the good-length exclusions through the non-forwarding
branch. -/
theorem isValidProxyMode_fst_goodlen (up : String → Option String) (g : String → Bool)
    (r : Config)
    (hlen : r.EncryptionKey.length = 16 ∨ r.EncryptionKey.length = 32) :
    ∀ n, (isValidProxyMode up g r).1 ≠ some (ConfigError.encryptionKeyLength n) ∧
      (isValidProxyMode up g r).1 ≠ some ConfigError.noEncryptionKey := by
  intro n
  unfold isValidProxyMode
  repeat' split
  · exact ⟨by simp, by simp⟩
  · exact ⟨by simp, by simp⟩
  · exact isValidVerificationChecks_fst_goodlen up g r hlen n
  · rcases checkResourcesAndClaims_fst_shape g r with h | h | ⟨p, k, h⟩ <;> rw [h] <;>
      exact ⟨by simp, by simp⟩

/-- Claim C9: with forwarding disabled, token verification not skipped and
refresh tokens enabled: a key length that is neither 16 nor 32 always
makes the validator error; a key length of exactly 16 or 32 never triggers
either encryption-key error; and on a reachable configuration a key of
length 15 produces exactly the length error whose message cites 15. -/
theorem isValid_encryption_key_length (fe : String → Bool) (up : String → Option String)
    (g : String → Bool) (r : Config) (hF : r.EnableForwarding = false)
    (hS : r.SkipTokenVerification = false) (hR : r.EnableRefreshTokens = true) :
    ((r.EncryptionKey.length ≠ 16 ∧ r.EncryptionKey.length ≠ 32) →
      (Config.isValid fe up g r).1 ≠ none) ∧
    ((r.EncryptionKey.length = 16 ∨ r.EncryptionKey.length = 32) →
      ∀ n, (Config.isValid fe up g r).1 ≠ some (ConfigError.encryptionKeyLength n) ∧
        (Config.isValid fe up g r).1 ≠ some ConfigError.noEncryptionKey) ∧
    ((r.EncryptionKey.length = 15 ∧ r.Listen ≠ "" ∧ tlsError fe r = none ∧
        r.Upstream ≠ "" ∧ up r.Upstream = none ∧ r.ClientID ≠ "" ∧ r.DiscoveryURL ≠ "") →
      (Config.isValid fe up g r).1 = some (ConfigError.encryptionKeyLength 15) ∧
      (ConfigError.encryptionKeyLength 15).message =
        "the encryption key (15) must be either 16 or 32 characters for AES-128/AES-256 selection") := by
  refine ⟨?_, ?_, ?_⟩
  · intro ⟨h16, h32⟩
    unfold Config.isValid
    by_cases hL : r.Listen = ""
    · simp [hL]
    · rw [if_neg hL]
      cases htls : tlsError fe r with
      | some e => simp
      | none =>
        rw [hF]
        simp only [Bool.false_eq_true, if_false]
        exact isValidProxyMode_fst_badlen up g r hS hR h16 h32
  · intro hlen n
    unfold Config.isValid
    by_cases hL : r.Listen = ""
    · simp [hL]
    · rw [if_neg hL]
      cases htls : tlsError fe r with
      | some e =>
        have he : e ≠ ConfigError.encryptionKeyLength n ∧ e ≠ ConfigError.noEncryptionKey := by
          revert htls
          unfold tlsError
          repeat' split
          all_goals intro hh
          all_goals first
            | (cases hh; exact ⟨by simp, by simp⟩)
            | (cases hh)
        exact ⟨by simp [he.1], by simp [he.2]⟩
      | none =>
        rw [hF]
        simp only [Bool.false_eq_true, if_false]
        exact isValidProxyMode_fst_goodlen up g r hlen n
  · intro ⟨h15, hL, htls, hU, hup, hC, hD⟩
    refine ⟨?_, by decide⟩
    unfold Config.isValid
    rw [if_neg hL, htls, hF]
    simp only [Bool.false_eq_true, if_false]
    unfold isValidProxyMode
    rw [if_neg hU, hup, hS]
    simp only [Bool.false_eq_true, not_false_eq_true, if_true]
    exact isValidVerificationChecks_fst_len15 up g r hR h15 hC hD

/-- Claim C9, witness: the theorem applied at three concrete configurations, one
with a 3-character key, one with a 16-character key, one with a
15-character key. -/
theorem isValid_encryption_key_length_witness :
    (Config.isValid (fun _ => false) (fun _ => none) (fun _ => true)
        { newDefaultConfig with
            Upstream := "http://up.example.com",
            ClientID := "cid",
            DiscoveryURL := "https://idp",
            EnableRefreshTokens := true,
            EncryptionKey := "abc" }).1 ≠ none ∧
    (Config.isValid (fun _ => false) (fun _ => none) (fun _ => true)
        { newDefaultConfig with
            Upstream := "http://up.example.com",
            ClientID := "cid",
            DiscoveryURL := "https://idp",
            EnableRefreshTokens := true,
            EncryptionKey := "0123456789abcdef" }).1 ≠
      some (ConfigError.encryptionKeyLength 16) ∧
    (Config.isValid (fun _ => false) (fun _ => none) (fun _ => true)
        { newDefaultConfig with
            Upstream := "http://up.example.com",
            ClientID := "cid",
            DiscoveryURL := "https://idp",
            EnableRefreshTokens := true,
            EncryptionKey := "012345678901234" }).1 =
      some (ConfigError.encryptionKeyLength 15) := by
  refine ⟨?_, ?_, ?_⟩
  · exact (isValid_encryption_key_length (fun _ => false) (fun _ => none) (fun _ => true)
      { newDefaultConfig with
          Upstream := "http://up.example.com",
          ClientID := "cid",
          DiscoveryURL := "https://idp",
          EnableRefreshTokens := true,
          EncryptionKey := "abc" } rfl rfl rfl).1 ⟨by decide, by decide⟩
  · exact ((isValid_encryption_key_length (fun _ => false) (fun _ => none) (fun _ => true)
      { newDefaultConfig with
          Upstream := "http://up.example.com",
          ClientID := "cid",
          DiscoveryURL := "https://idp",
          EnableRefreshTokens := true,
          EncryptionKey := "0123456789abcdef" } rfl rfl rfl).2.1 (Or.inl (by decide)) 16).1
  · exact ((isValid_encryption_key_length (fun _ => false) (fun _ => none) (fun _ => true)
      { newDefaultConfig with
          Upstream := "http://up.example.com",
          ClientID := "cid",
          DiscoveryURL := "https://idp",
          EnableRefreshTokens := true,
          EncryptionKey := "012345678901234" } rfl rfl rfl).2.2
      ⟨by decide, by decide, rfl, by decide, rfl, by decide, by decide⟩).1

/-- Helper: the forwarding-mode checks report only missing-field errors. -/
theorem forwardingModeError_shape (r : Config) :
    forwardingModeError r = none ∨
    forwardingModeError r = some ConfigError.noClientID ∨
    forwardingModeError r = some ConfigError.noDiscoveryURL ∨
    forwardingModeError r = some ConfigError.noForwardingUsername ∨
    forwardingModeError r = some ConfigError.noForwardingPassword := by
  unfold forwardingModeError
  repeat' split
  · exact Or.inr (Or.inl rfl)
  · exact Or.inr (Or.inr (Or.inl rfl))
  · exact Or.inr (Or.inr (Or.inr (Or.inl rfl)))
  · exact Or.inr (Or.inr (Or.inr (Or.inr rfl)))
  · exact Or.inl rfl

/-- Helper: the key-check block never reports a TLS pairing or existence
error. -/
theorem isValidKeyChecks_fst_ne_tls (up : String → Option String) (g : String → Bool)
    (d : Config) :
    ∀ p, (isValidKeyChecks up g d).1 ≠ some ConfigError.tlsNoPrivateKey ∧
      (isValidKeyChecks up g d).1 ≠ some ConfigError.tlsNoCertificate ∧
      (isValidKeyChecks up g d).1 ≠ some (ConfigError.tlsCertNotExists p) ∧
      (isValidKeyChecks up g d).1 ≠ some (ConfigError.tlsKeyNotExists p) := by
  intro p
  unfold isValidKeyChecks
  repeat' split
  all_goals try (rcases checkResourcesAndClaims_fst_shape g d with h | h | ⟨a, b, h⟩ <;> rw [h])
  all_goals exact ⟨by simp, by simp, by simp, by simp⟩

/-- Helper: the verification block never reports a TLS pairing or
existence error. -/
theorem isValidVerificationChecks_fst_ne_tls (up : String → Option String)
    (g : String → Bool) (r : Config) :
    ∀ p, (isValidVerificationChecks up g r).1 ≠ some ConfigError.tlsNoPrivateKey ∧
      (isValidVerificationChecks up g r).1 ≠ some ConfigError.tlsNoCertificate ∧
      (isValidVerificationChecks up g r).1 ≠ some (ConfigError.tlsCertNotExists p) ∧
      (isValidVerificationChecks up g r).1 ≠ some (ConfigError.tlsKeyNotExists p) := by
  intro p
  unfold isValidVerificationChecks
  repeat' split
  · exact ⟨by simp, by simp, by simp, by simp⟩
  · exact ⟨by simp, by simp, by simp, by simp⟩
  · exact isValidKeyChecks_fst_ne_tls up g
      { r with RedirectionURL := trimSuffixStr "/" r.RedirectionURL } p
  · exact isValidKeyChecks_fst_ne_tls up g r p

/-- Helper: the non-forwarding branch never reports a TLS pairing or
existence error. -/
theorem isValidProxyMode_fst_ne_tls (up : String → Option String) (g : String → Bool)
    (r : Config) :
    ∀ p, (isValidProxyMode up g r).1 ≠ some ConfigError.tlsNoPrivateKey ∧
      (isValidProxyMode up g r).1 ≠ some ConfigError.tlsNoCertificate ∧
      (isValidProxyMode up g r).1 ≠ some (ConfigError.tlsCertNotExists p) ∧
      (isValidProxyMode up g r).1 ≠ some (ConfigError.tlsKeyNotExists p) := by
  intro p
  unfold isValidProxyMode
  repeat' split
  · exact ⟨by simp, by simp, by simp, by simp⟩
  · exact ⟨by simp, by simp, by simp, by simp⟩
  · exact isValidVerificationChecks_fst_ne_tls up g r p
  · rcases checkResourcesAndClaims_fst_shape g r with h | h | ⟨a, b, h⟩ <;> rw [h] <;>
      exact ⟨by simp, by simp, by simp, by simp⟩

/-- Claim C10: setting exactly one of the TLS certificate and private key always
makes the validator error, and when both are unset, or both are set with
both paths existing per the file oracle, the validator never reports any
of the four certificate-and-key pairing or existence errors. -/
theorem isValid_tls_pairing (fe : String → Bool) (up : String → Option String)
    (g : String → Bool) (r : Config) :
    (((r.TLSCertificate ≠ "" ∧ r.TLSPrivateKey = "") ∨
        (r.TLSCertificate = "" ∧ r.TLSPrivateKey ≠ "")) →
      (Config.isValid fe up g r).1 ≠ none) ∧
    (((r.TLSCertificate = "" ∧ r.TLSPrivateKey = "") ∨
        (r.TLSCertificate ≠ "" ∧ r.TLSPrivateKey ≠ "" ∧
          fe r.TLSCertificate = true ∧ fe r.TLSPrivateKey = true)) →
      ∀ p, (Config.isValid fe up g r).1 ≠ some ConfigError.tlsNoPrivateKey ∧
        (Config.isValid fe up g r).1 ≠ some ConfigError.tlsNoCertificate ∧
        (Config.isValid fe up g r).1 ≠ some (ConfigError.tlsCertNotExists p) ∧
        (Config.isValid fe up g r).1 ≠ some (ConfigError.tlsKeyNotExists p)) := by
  constructor
  · intro hone
    unfold Config.isValid
    by_cases hL : r.Listen = ""
    · simp [hL]
    · rw [if_neg hL]
      have hsome : ∃ e, tlsError fe r = some e := by
        unfold tlsError
        rcases hone with ⟨hc, hk⟩ | ⟨hc, hk⟩
        · rw [if_pos ⟨hc, hk⟩]
          exact ⟨_, rfl⟩
        · rw [if_neg (fun hand => hand.1 hc), if_pos ⟨hk, hc⟩]
          exact ⟨_, rfl⟩
      rcases hsome with ⟨e, he⟩
      rw [he]
      simp
  · intro hok p
    have h1 : ¬ (r.TLSCertificate ≠ "" ∧ r.TLSPrivateKey = "") := by
      rcases hok with ⟨hc, hk⟩ | ⟨hc, hk, he1, he2⟩
      · exact fun hand => hand.1 hc
      · exact fun hand => hk hand.2
    have h2 : ¬ (r.TLSPrivateKey ≠ "" ∧ r.TLSCertificate = "") := by
      rcases hok with ⟨hc, hk⟩ | ⟨hc, hk, he1, he2⟩
      · exact fun hand => hand.1 hk
      · exact fun hand => hc hand.2
    have h3 : ¬ (r.TLSCertificate ≠ "" ∧ ¬ fe r.TLSCertificate = true) := by
      rcases hok with ⟨hc, hk⟩ | ⟨hc, hk, he1, he2⟩
      · exact fun hand => hand.1 hc
      · exact fun hand => hand.2 he1
    have h4 : ¬ (r.TLSPrivateKey ≠ "" ∧ ¬ fe r.TLSPrivateKey = true) := by
      rcases hok with ⟨hc, hk⟩ | ⟨hc, hk, he1, he2⟩
      · exact fun hand => hand.1 hk
      · exact fun hand => hand.2 he2
    have htls : tlsError fe r = none ∨
        (∃ q, tlsError fe r = some (ConfigError.tlsCaNotExists q)) ∨
        ∃ q, tlsError fe r = some (ConfigError.tlsClientCertNotExists q) := by
      unfold tlsError
      rw [if_neg h1, if_neg h2, if_neg h3, if_neg h4]
      repeat' split
      · exact Or.inr (Or.inl ⟨_, rfl⟩)
      · exact Or.inr (Or.inr ⟨_, rfl⟩)
      · exact Or.inl rfl
    unfold Config.isValid
    by_cases hL : r.Listen = ""
    · rw [if_pos hL]
      exact ⟨by simp, by simp, by simp, by simp⟩
    · rw [if_neg hL]
      rcases htls with h | ⟨q, h⟩ | ⟨q, h⟩ <;> rw [h] <;> simp only
      · split
        · rcases forwardingModeError_shape r with hfm | hfm | hfm | hfm | hfm <;> rw [hfm] <;>
            exact ⟨by simp, by simp, by simp, by simp⟩
        · exact isValidProxyMode_fst_ne_tls up g r p
      · exact ⟨by simp, by simp, by simp, by simp⟩
      · exact ⟨by simp, by simp, by simp, by simp⟩

/-- Claim C10, witness: the theorem applied at a configuration setting only the
certificate (first part) and at the default configuration with both TLS
fields unset (second part). -/
theorem isValid_tls_pairing_witness :
    (Config.isValid (fun _ => false) (fun _ => none) (fun _ => true)
        { newDefaultConfig with TLSCertificate := "/etc/tls/cert.pem" }).1 ≠ none ∧
    (Config.isValid (fun _ => false) (fun _ => none) (fun _ => true)
        newDefaultConfig).1 ≠ some ConfigError.tlsNoPrivateKey := by
  constructor
  · exact (isValid_tls_pairing (fun _ => false) (fun _ => none) (fun _ => true)
      { newDefaultConfig with TLSCertificate := "/etc/tls/cert.pem" }).1
      (Or.inl ⟨by decide, rfl⟩)
  · exact ((isValid_tls_pairing (fun _ => false) (fun _ => none) (fun _ => true)
      newDefaultConfig).2 (Or.inl ⟨rfl, rfl⟩) "/p").1
